import Mathlib

/-!
# Verification of the cf-expandables widget logic

Shallow embedding of `src/js/cf-expandables.js`: the pure duration
helpers (`constrainValue`, `calculateExpandDuration`,
`calculateCollapseDuration`), the widget state mutated by
`expand` / `collapse` / `toggle`, the leading-edge throttle, and the
`create` / `init` configuration merge.  DOM side effects (the jQuery
animation itself, event suppression) are modelled by the data they
read and write: class lists, ARIA attribute strings, the boolean
`isExpanded` flag, and the animation duration handed to the slide
call.
-/

namespace CfExpandables

/-- `constrainValue( min, max, duration )` from the source: checks the
upper bound first (`duration > max`), then the lower bound
(`duration < min`), else returns `duration` unchanged. -/
def constrainValue (min max duration : Int) : Int :=
  if duration > max then max
  else if duration < min then min
  else duration

/-- `calculateExpandDuration( height )`: `constrainValue( 450, 900, height * 4 )`. -/
def calculateExpandDuration (height : Int) : Int :=
  constrainValue 450 900 (height * 4)

/-- `calculateCollapseDuration( height )`: `constrainValue( 350, 900, height * 2 )`. -/
def calculateCollapseDuration (height : Int) : Int :=
  constrainValue 350 900 (height * 2)

/-- jQuery `hasClass`: membership of a class name in the element's class list. -/
def containsClass : List String → String → Bool
  | [], _ => false
  | x :: xs, c => if x = c then true else containsClass xs c

/-- jQuery `addClass`: appends the class when it is not already present. -/
def addClass (cs : List String) (c : String) : List String :=
  if containsClass cs c then cs else cs ++ [c]

/-- jQuery `removeClass`: removes every occurrence of the class. -/
def removeClass : List String → String → List String
  | [], _ => []
  | x :: xs, c => if x = c then removeClass xs c else x :: removeClass xs c

/-- One widget instance: the container's class list, the cached trigger's
`aria-pressed` and `aria-controls` attributes, the cached content
region's `aria-expanded` and `id` attributes and current rendered
height, and the instance properties set by `create` / `init`. -/
structure Widget where
  classes : List String
  ariaPressed : String
  ariaExpanded : String
  ariaControls : String
  contentId : String
  contentHeight : Int
  isExpanded : Bool
  isInAccordion : Bool
  expandedClass : String
  throttleDuration : Int
deriving DecidableEq

/-- jQuery `hasClass` on the widget's container element. -/
def hasClass (w : Widget) (c : String) : Bool :=
  containsClass w.classes c

/-- `expand( duration )` from the source: sets `aria-pressed` and
`aria-expanded` to `"true"`, computes the slide duration from the
content height when none is supplied, adds the expanded class on
the container, starts `slideDown` (returned as the duration of the
animation command), and sets `isExpanded = true` synchronously. -/
def expand (w : Widget) (duration : Option Int) : Widget × Int :=
  let d := duration.getD (calculateExpandDuration w.contentHeight)
  ({ w with
      ariaPressed := "true"
      ariaExpanded := "true"
      classes := addClass w.classes w.expandedClass
      isExpanded := true }, d)

/-- `collapse( duration )` from the source: sets `aria-pressed` and
`aria-expanded` to `"false"`, computes the slide duration from the
content height when none is supplied, removes the expanded class on
the container, starts `slideUp` (returned as the duration of the
animation command), and sets `isExpanded = false` synchronously. -/
def collapse (w : Widget) (duration : Option Int) : Widget × Int :=
  let d := duration.getD (calculateCollapseDuration w.contentHeight)
  ({ w with
      ariaPressed := "false"
      ariaExpanded := "false"
      classes := removeClass w.classes w.expandedClass
      isExpanded := false }, d)

/-- `this.$el.siblings( '.expandable' ).each( ... sibling.collapse() )`:
collapses every widget in the list whose container carries the
`expandable` class, leaving the others untouched. -/
def collapseAllExpandable (ws : List Widget) : List Widget :=
  ws.map (fun x => if hasClass x "expandable" then (collapse x none).1 else x)

/-- The sibling collapse as seen from the member at index `i`: every
other list member with the `expandable` class is collapsed; the
member itself (`this`) is not its own sibling and is skipped. -/
def collapseSiblings : List Widget → Nat → List Widget
  | [], _ => []
  | x :: xs, 0 => x :: collapseAllExpandable xs
  | x :: xs, Nat.succ i =>
      (if hasClass x "expandable" then (collapse x none).1 else x) ::
        collapseSiblings xs i

/-- `toggle( event )` from the source, acting on the group member at
index `i` of a list of DOM siblings.  `event.preventDefault()` and
`event.stopPropagation()` touch only the event object and are not part
of the widget state.  If the member is expanded it collapses; otherwise,
when `isInAccordion`, all `.expandable` siblings are collapsed first and
then the member expands. -/
def toggleAt (ws : List Widget) (i : Nat) : List Widget :=
  match ws.get? i with
  | none => ws
  | some w =>
    if w.isExpanded then
      ws.set i (collapse w none).1
    else
      let ws' := if w.isInAccordion then collapseSiblings ws i else ws
      ws'.set i (expand w none).1

/-- `_throttle( duration, callback, context )` from the source, with the
wall clock made explicit: the closure's `isThrottling` flag is `true`
exactly on the half-open window starting at the last executed
activation, because `window.setTimeout` resets it `duration`
milliseconds later.  Given the blocked-until time and the (ascending)
activation times, returns for each activation whether the wrapped
callback ran (`true`) or the activation was ignored (`false`). -/
def throttleRun (duration : Nat) : Nat → List Nat → List Bool
  | _, [] => []
  | blockedUntil, t :: ts =>
    if t < blockedUntil then false :: throttleRun duration blockedUntil ts
    else true :: throttleRun duration (t + duration) ts

/-- The caller-supplied configuration object: each recognized key is
optional. -/
structure Options where
  isInAccordion : Option Bool := none
  expandedClass : Option String := none
  throttleDuration : Option Int := none

/-- The instance properties after the configuration merge. -/
structure Properties where
  isInAccordion : Bool
  expandedClass : String
  throttleDuration : Int

/-- `Expandable.defaultProperties` from the source. -/
def defaultProperties : Properties :=
  { isInAccordion := false
    expandedClass := "expandable__expanded"
    throttleDuration := 450 }

/-- `$.extend( true, \x7b\x7d, Expandable.defaultProperties, options )`:
a caller-supplied value wins over the default, an absent key falls
back to the default. -/
def mergeProperties (options : Options) : Properties :=
  { isInAccordion := options.isInAccordion.getD defaultProperties.isInAccordion
    expandedClass := options.expandedClass.getD defaultProperties.expandedClass
    throttleDuration := options.throttleDuration.getD defaultProperties.throttleDuration }

/-- `Expandable.create` followed by `init` / `initUI` from the source:
merges the configuration over the defaults and copies it onto the
element, then `init` overwrites `isInAccordion` with the DOM ancestor
accordion flag (`Boolean( this.$el.parents( '.expandable-group' ).data( 'accordion' ) )`)
and reads `isExpanded` from the container's class list; `initUI` links
`aria-controls` to the content id and performs a zero-duration render
matching the initial `isExpanded`. -/
def create (options : Options) (domClasses : List String) (contentId : String)
    (contentHeight : Int) (ancestorAccordion : Bool) : Widget :=
  let properties := mergeProperties options
  let w0 : Widget :=
    { classes := domClasses
      ariaPressed := ""
      ariaExpanded := ""
      ariaControls := ""
      contentId := contentId
      contentHeight := contentHeight
      isExpanded := false
      isInAccordion := properties.isInAccordion
      expandedClass := properties.expandedClass
      throttleDuration := properties.throttleDuration }
  let w1 := { w0 with
      isInAccordion := ancestorAccordion
      isExpanded := hasClass w0 properties.expandedClass }
  let w2 := { w1 with ariaControls := contentId }
  if w2.isExpanded then (expand w2 (some 0)).1 else (collapse w2 (some 0)).1

/-- Number of expanded members in a list of widgets. -/
def countExpanded (ws : List Widget) : Nat :=
  (ws.filter (fun w => w.isExpanded)).length

-- Theorems

/-- C1: for every height ≥ 0, `calculateExpandDuration height` equals
`constrainValue 450 900 (height * 4)` and lies in `[450, 900]`. -/
theorem calculateExpandDuration_spec (height : Int) (hh : 0 ≤ height) :
    calculateExpandDuration height = constrainValue 450 900 (height * 4) ∧
    450 ≤ calculateExpandDuration height ∧ calculateExpandDuration height ≤ 900 := by
  refine ⟨rfl, ?_⟩
  unfold calculateExpandDuration constrainValue
  split
  · omega
  · split <;> omega

/-- C1 witness: the clamp identity and the bounds at height 100. -/
theorem calculateExpandDuration_spec_witness :
    calculateExpandDuration 100 = constrainValue 450 900 (100 * 4) ∧
    450 ≤ calculateExpandDuration 100 ∧ calculateExpandDuration 100 ≤ 900 :=
  calculateExpandDuration_spec 100 (by decide)

/-- C2: for every height ≥ 0, `calculateCollapseDuration height` equals
`constrainValue 350 900 (height * 2)` and lies in `[350, 900]`. -/
theorem calculateCollapseDuration_spec (height : Int) (hh : 0 ≤ height) :
    calculateCollapseDuration height = constrainValue 350 900 (height * 2) ∧
    350 ≤ calculateCollapseDuration height ∧ calculateCollapseDuration height ≤ 900 := by
  refine ⟨rfl, ?_⟩
  unfold calculateCollapseDuration constrainValue
  split
  · omega
  · split <;> omega

/-- C2 witness: the clamp identity and the bounds at height 100. -/
theorem calculateCollapseDuration_spec_witness :
    calculateCollapseDuration 100 = constrainValue 350 900 (100 * 2) ∧
    350 ≤ calculateCollapseDuration 100 ∧ calculateCollapseDuration 100 ≤ 900 :=
  calculateCollapseDuration_spec 100 (by decide)

/-- C3: for min ≤ max, `constrainValue` returns min below min, max above
max, and the value itself inside the interval. -/
theorem constrainValue_spec (min max v : Int) (hmm : min ≤ max) :
    (v < min → constrainValue min max v = min) ∧
    (max < v → constrainValue min max v = max) ∧
    (min ≤ v → v ≤ max → constrainValue min max v = v) := by
  unfold constrainValue
  refine ⟨fun h1 => ?_, fun h2 => ?_, fun h3 h4 => ?_⟩ <;> split <;> (try split) <;> omega

/-- C3 witness: a value below the minimum, one above the maximum, and
one inside the interval, for min 450 and max 900. -/
theorem constrainValue_spec_witness :
    constrainValue 450 900 100 = 450 ∧
    constrainValue 450 900 1000 = 900 ∧
    constrainValue 450 900 500 = 500 :=
  ⟨(constrainValue_spec 450 900 100 (by decide)).1 (by decide),
   (constrainValue_spec 450 900 1000 (by decide)).2.1 (by decide),
   (constrainValue_spec 450 900 500 (by decide)).2.2 (by decide) (by decide)⟩

/-- C9: when min > max and the value is above max, `constrainValue`
takes the upper-bound branch first and returns max, a value strictly
below min. -/
theorem constrainValue_inverted_range (min max d : Int) (hmm : max < min)
    (hd : max < d) :
    constrainValue min max d = max ∧ constrainValue min max d < min := by
  unfold constrainValue
  split
  · exact ⟨rfl, hmm⟩
  · omega

/-- C9 witness: min 900, max 450, value 1000 — the result is 450, below
the minimum. -/
theorem constrainValue_inverted_range_witness :
    constrainValue 900 450 1000 = 450 ∧ constrainValue 900 450 1000 < 900 :=
  constrainValue_inverted_range 900 450 1000 (by decide) (by decide)

lemma containsClass_append_self (cs : List String) (c : String) :
    containsClass (cs ++ [c]) c = true := by
  induction cs with
  | nil => simp [containsClass]
  | cons x xs ih =>
      rw [List.cons_append]
      unfold containsClass
      split
      · rfl
      · exact ih

lemma containsClass_addClass (cs : List String) (c : String) :
    containsClass (addClass cs c) c = true := by
  unfold addClass
  split
  · assumption
  · exact containsClass_append_self cs c

lemma containsClass_removeClass (cs : List String) (c : String) :
    containsClass (removeClass cs c) c = false := by
  induction cs with
  | nil => rfl
  | cons x xs ih =>
      unfold removeClass
      split
      · exact ih
      · unfold containsClass
        rw [if_neg (by assumption)]
        exact ih

lemma addClass_of_contains (cs : List String) (c : String)
    (h : containsClass cs c = true) : addClass cs c = cs := by
  unfold addClass
  simp [h]

lemma removeClass_of_not_contains (cs : List String) (c : String)
    (h : containsClass cs c = false) : removeClass cs c = cs := by
  induction cs with
  | nil => rfl
  | cons x xs ih =>
      unfold containsClass at h
      unfold removeClass
      split at h
      · simp at h
      · rw [if_neg (by assumption), ih h]

/-- A widget whose collapsed state is rendered: `isExpanded` is false,
the expanded class is absent, and both ARIA flags read `"false"`. -/
def sampleCollapsed : Widget :=
  { classes := ["expandable"]
    ariaPressed := "false"
    ariaExpanded := "false"
    ariaControls := "content-1"
    contentId := "content-1"
    contentHeight := 100
    isExpanded := false
    isInAccordion := true
    expandedClass := "expandable__expanded"
    throttleDuration := 450 }

/-- A widget whose expanded state is rendered: `isExpanded` is true, the
expanded class is present, and both ARIA flags read `"true"`. -/
def sampleExpanded : Widget :=
  { sampleCollapsed with
      classes := ["expandable", "expandable__expanded"]
      ariaPressed := "true"
      ariaExpanded := "true"
      ariaControls := "content-2"
      contentId := "content-2"
      isExpanded := true }

/-- A DOM sibling that does not carry the `expandable` class and so is
not part of the accordion group. -/
def sampleOutsider : Widget :=
  { sampleCollapsed with
      classes := ["other"]
      ariaControls := "content-3"
      contentId := "content-3"
      isInAccordion := false }

/-- C4: every `expand` call sets `isExpanded` to true and adds the
expanded class, every `collapse` call sets it to false and removes the
class, synchronously in the returned state (the animation is only the
duration handed back); hence `isExpanded` equals the presence of the
expanded class after either operation, for every starting state and
every duration argument. -/
theorem expand_collapse_class_invariant (w : Widget) (d : Option Int) :
    ((expand w d).1.isExpanded = true ∧
      hasClass (expand w d).1 (expand w d).1.expandedClass = true) ∧
    ((collapse w d).1.isExpanded = false ∧
      hasClass (collapse w d).1 (collapse w d).1.expandedClass = false) ∧
    (expand w d).1.isExpanded = hasClass (expand w d).1 (expand w d).1.expandedClass ∧
    (collapse w d).1.isExpanded = hasClass (collapse w d).1 (collapse w d).1.expandedClass := by
  simp [expand, collapse, hasClass, containsClass_addClass, containsClass_removeClass]

/-- C7: starting from a rendered collapsed state, `expand` followed by
`collapse` restores `isExpanded` and both ARIA attributes to their
original values. -/
theorem expand_collapse_roundtrip (w : Widget)
    (h1 : w.isExpanded = false) (h2 : w.ariaPressed = "false")
    (h3 : w.ariaExpanded = "false") :
    (collapse (expand w none).1 none).1.isExpanded = w.isExpanded ∧
    (collapse (expand w none).1 none).1.ariaPressed = w.ariaPressed ∧
    (collapse (expand w none).1 none).1.ariaExpanded = w.ariaExpanded := by
  simp [expand, collapse, h1, h2, h3]

/-- C7 witness: the round trip on the sample collapsed widget. -/
theorem expand_collapse_roundtrip_witness :
    (collapse (expand sampleCollapsed none).1 none).1.isExpanded = sampleCollapsed.isExpanded ∧
    (collapse (expand sampleCollapsed none).1 none).1.ariaPressed = sampleCollapsed.ariaPressed ∧
    (collapse (expand sampleCollapsed none).1 none).1.ariaExpanded = sampleCollapsed.ariaExpanded :=
  expand_collapse_roundtrip sampleCollapsed rfl rfl rfl

/-- C10: `expand` on a widget already in the rendered expanded state
leaves `isExpanded`, the expanded class marker, `aria-pressed` and
`aria-expanded` unchanged, and `collapse` on a widget already in the
rendered collapsed state does likewise. -/
theorem expand_collapse_idempotent (w v : Widget)
    (hw1 : w.isExpanded = true) (hw2 : hasClass w w.expandedClass = true)
    (hw3 : w.ariaPressed = "true") (hw4 : w.ariaExpanded = "true")
    (hv1 : v.isExpanded = false) (hv2 : hasClass v v.expandedClass = false)
    (hv3 : v.ariaPressed = "false") (hv4 : v.ariaExpanded = "false") :
    ((expand w none).1.isExpanded = w.isExpanded ∧
      hasClass (expand w none).1 w.expandedClass = hasClass w w.expandedClass ∧
      (expand w none).1.ariaPressed = w.ariaPressed ∧
      (expand w none).1.ariaExpanded = w.ariaExpanded) ∧
    ((collapse v none).1.isExpanded = v.isExpanded ∧
      hasClass (collapse v none).1 v.expandedClass = hasClass v v.expandedClass ∧
      (collapse v none).1.ariaPressed = v.ariaPressed ∧
      (collapse v none).1.ariaExpanded = v.ariaExpanded) := by
  unfold hasClass at hw2 hv2 ⊢
  simp [expand, collapse, hw1, hw2, hw3, hw4, hv1, hv2, hv3, hv4,
    addClass_of_contains _ _ hw2, removeClass_of_not_contains _ _ hv2]

/-- C10 witness: idempotence on the sample expanded and sample collapsed
widgets. -/
theorem expand_collapse_idempotent_witness :
    ((expand sampleExpanded none).1.isExpanded = sampleExpanded.isExpanded ∧
      hasClass (expand sampleExpanded none).1 sampleExpanded.expandedClass =
        hasClass sampleExpanded sampleExpanded.expandedClass ∧
      (expand sampleExpanded none).1.ariaPressed = sampleExpanded.ariaPressed ∧
      (expand sampleExpanded none).1.ariaExpanded = sampleExpanded.ariaExpanded) ∧
    ((collapse sampleCollapsed none).1.isExpanded = sampleCollapsed.isExpanded ∧
      hasClass (collapse sampleCollapsed none).1 sampleCollapsed.expandedClass =
        hasClass sampleCollapsed sampleCollapsed.expandedClass ∧
      (collapse sampleCollapsed none).1.ariaPressed = sampleCollapsed.ariaPressed ∧
      (collapse sampleCollapsed none).1.ariaExpanded = sampleCollapsed.ariaExpanded) :=
  expand_collapse_idempotent sampleExpanded sampleCollapsed rfl (by decide) rfl rfl
    rfl (by decide) rfl rfl

/-- C5: toggling a collapsed accordion member first collapses every
`.expandable` sibling and then expands the member: with A collapsed and
in an accordion, B an expanded `.expandable` sibling, and C a sibling
without the `expandable` class, the toggle leaves A expanded, B
collapsed, C untouched, and at most one group member expanded. -/
theorem toggle_accordion_exclusive (A B C : Widget)
    (hA : A.isExpanded = false) (hAcc : A.isInAccordion = true)
    (hB : hasClass B "expandable" = true) (hC : hasClass C "expandable" = false) :
    toggleAt [A, B, C] 0 = [(expand A none).1, (collapse B none).1, C] ∧
    (expand A none).1.isExpanded = true ∧
    (collapse B none).1.isExpanded = false ∧
    countExpanded [(expand A none).1, (collapse B none).1] ≤ 1 := by
  refine ⟨?_, rfl, rfl, ?_⟩
  · simp [toggleAt, collapseSiblings, collapseAllExpandable, hA, hAcc, hB, hC]
  · simp [countExpanded, expand, collapse]

/-- C5 witness: the sample group — collapsed accordion member, expanded
sibling, non-group sibling. -/
theorem toggle_accordion_exclusive_witness :
    toggleAt [sampleCollapsed, sampleExpanded, sampleOutsider] 0 =
      [(expand sampleCollapsed none).1, (collapse sampleExpanded none).1, sampleOutsider] ∧
    (expand sampleCollapsed none).1.isExpanded = true ∧
    (collapse sampleExpanded none).1.isExpanded = false ∧
    countExpanded [(expand sampleCollapsed none).1, (collapse sampleExpanded none).1] ≤ 1 :=
  toggle_accordion_exclusive sampleCollapsed sampleExpanded sampleOutsider rfl rfl
    (by decide) (by decide)

lemma throttleRun_blocked_append (d b : Nat) (ts rest : List Nat)
    (h : ∀ t ∈ ts, t < b) :
    throttleRun d b (ts ++ rest) =
      List.replicate ts.length false ++ throttleRun d b rest := by
  induction ts with
  | nil => simp
  | cons t ts ih =>
      rw [List.cons_append, throttleRun]
      rw [if_pos (h t (List.mem_cons_self t ts))]
      rw [List.length_cons, List.replicate_succ, List.cons_append,
        ih (fun x hx => h x (List.mem_cons_of_mem t hx))]

lemma throttleRun_all_blocked (d b : Nat) (ts : List Nat)
    (h : ∀ t ∈ ts, t < b) :
    throttleRun d b ts = List.replicate ts.length false := by
  have := throttleRun_blocked_append d b ts [] h
  simpa [throttleRun] using this

lemma count_true_replicate_false (n : Nat) :
    (List.replicate n false).count true = 0 := by
  induction n with
  | zero => rfl
  | succ n ih =>
      rw [List.replicate_succ]
      simp [List.count_cons, ih]

/-- C6: the throttle is a leading-edge rate limiter: the first
activation at time `t0` executes, every later activation inside the
window `[t0, t0 + d)` is ignored (so a burst inside one window yields
exactly one executed toggle), and an activation at a time `t1` at
which the window has elapsed is processed normally. -/
theorem throttle_leading_edge (d t0 t1 : Nat) (ts : List Nat)
    (hts : ∀ t ∈ ts, t < t0 + d) (ht1 : t0 + d ≤ t1) :
    throttleRun d 0 (t0 :: ts) = true :: List.replicate ts.length false ∧
    (throttleRun d 0 (t0 :: ts)).count true = 1 ∧
    throttleRun d 0 (t0 :: (ts ++ [t1])) =
      true :: (List.replicate ts.length false ++ [true]) := by
  have h0 : ¬ t0 < 0 := Nat.not_lt_zero t0
  have e1 : throttleRun d 0 (t0 :: ts) = true :: List.replicate ts.length false := by
    rw [throttleRun, if_neg h0, throttleRun_all_blocked d (t0 + d) ts hts]
  refine ⟨e1, ?_, ?_⟩
  · rw [e1]
    simp [List.count_cons, count_true_replicate_false]
  · rw [throttleRun, if_neg h0, throttleRun_blocked_append d (t0 + d) ts [t1] hts]
    rw [throttleRun, if_neg (by omega), throttleRun]

/-- C6 witness: ten activations inside 100ms under a 450ms throttle
execute exactly once, and an activation at 450ms is processed. -/
theorem throttle_leading_edge_witness :
    throttleRun 450 0 (0 :: [10, 20, 30, 40, 50, 60, 70, 80, 90]) =
      true :: List.replicate [10, 20, 30, 40, 50, 60, 70, 80, 90].length false ∧
    (throttleRun 450 0 (0 :: [10, 20, 30, 40, 50, 60, 70, 80, 90])).count true = 1 ∧
    throttleRun 450 0 (0 :: ([10, 20, 30, 40, 50, 60, 70, 80, 90] ++ [450])) =
      true :: (List.replicate [10, 20, 30, 40, 50, 60, 70, 80, 90].length false ++ [true]) :=
  throttle_leading_edge 450 0 450 [10, 20, 30, 40, 50, 60, 70, 80, 90]
    (by decide) (by decide)

/-- C8 counterexample: a caller-supplied `isInAccordion := true` does
not take precedence in the resulting instance — `init` overwrites it
with the DOM ancestor accordion flag, here false. -/
theorem create_caller_isInAccordion_lost :
    (create { isInAccordion := some true } ["expandable"] "content-1" 100
      false).isInAccordion ≠ true := by
  decide

/-- C8 (amended): caller-supplied `expandedClass` and `throttleDuration`
take precedence over the defaults in the resulting instance, while
`isInAccordion` is recomputed from the DOM ancestor accordion flag
during `init`, whatever the caller supplied. -/
theorem create_config_precedence (b : Option Bool) (c : String) (n : Int)
    (domClasses : List String) (cid : String) (ch : Int) (acc : Bool) :
    (create { isInAccordion := b, expandedClass := some c, throttleDuration := some n }
        domClasses cid ch acc).expandedClass = c ∧
    (create { isInAccordion := b, expandedClass := some c, throttleDuration := some n }
        domClasses cid ch acc).throttleDuration = n ∧
    (create { isInAccordion := b, expandedClass := some c, throttleDuration := some n }
        domClasses cid ch acc).isInAccordion = acc := by
  refine ⟨?_, ?_, ?_⟩ <;>
    · simp only [create, mergeProperties]
      split <;> rfl

end CfExpandables
